import Mathlib

/-!
Shallow embedding of the faceted filter reconciliation engine of the
`db_com_ind` map application.

The embedded code comes from two components:
* the sidebar component (`validateFilters`, `synchronizeFilters`, the four
  facet option lists and `getFilteredCount`), and
* the map component (`applyMapFilters`, `applyFilterZoom` and the
  deduplication step of `extractLayerData`).

Modelling conventions: feature properties are total strings (a missing
property is the empty string, matching how the source coerces values with
`String(x || '')` where it builds the index, and matching the fact that the
engine only ever compares properties with string equality); JavaScript string
truthiness is modelled as inequality with `""`; `s && s.trim() !== ''` is
modelled as `s ≠ "" ∧ strTrim s ≠ ""`; the mutable `Set`/`Map` lookup structures
are modelled as lists with first-insertion order; locale-collated sorting of
the option lists is omitted because it is a membership-preserving permutation
and every property stated here is about membership.
-/

/-- Properties of one geographic feature record (`feature.properties`):
`NOM_ENT` (state), `NOM_MUN` (municipality), `NOM_COM` (community),
`NOM_LOC` (locality, fallback community name), `Pueblo` (people) and the
optional `ID` record id used for deduplication. -/
structure Props where
  NOM_ENT : String := ""
  NOM_MUN : String := ""
  NOM_COM : String := ""
  NOM_LOC : String := ""
  Pueblo : String := ""
  ID : Option String := none
deriving DecidableEq, Repr

/-- One geographic feature: its properties plus the optional top-level
feature id (`f.id`), which the deduplication step consults when
`properties.ID` is absent. -/
structure Feature where
  props : Props
  fid : Option String := none
deriving DecidableEq, Repr

/-- The community-or-locality fallback `props.NOM_COM || props.NOM_LOC`
used throughout the sidebar. -/
def fallbackCom (p : Props) : String :=
  if p.NOM_COM = "" then p.NOM_LOC else p.NOM_COM

/-- The four-facet selection (`FilterState` in the source): `entidad`
(state), `municipio` (municipality), `comunidad` (community), `pueblo`
(people).  The empty string means "no constraint". -/
structure FilterState where
  entidad : String
  municipio : String
  comunidad : String
  pueblo : String
deriving DecidableEq, Repr

/-- Name of an edited facet (the `field: keyof FilterState` argument of
`synchronizeFilters`). -/
inductive FilterField where
  | entidad
  | municipio
  | comunidad
  | pueblo
deriving DecidableEq, Repr

/-- Read one facet of a selection. -/
def getFacet (s : FilterState) : FilterField → String
  | .entidad => s.entidad
  | .municipio => s.municipio
  | .comunidad => s.comunidad
  | .pueblo => s.pueblo

/-- Replace one facet of a selection (the spread `{ ...current, [field]: value }`). -/
def setFacet (s : FilterState) : FilterField → String → FilterState
  | .entidad, v => { s with entidad := v }
  | .municipio, v => { s with municipio := v }
  | .comunidad, v => { s with comunidad := v }
  | .pueblo, v => { s with pueblo := v }

/-- The `ExtractedData` snapshot handed from the map component to the
sidebar: the four derived lookup structures plus the de-duplicated feature
list.  `municipiosPorEntidad` is keyed by state, `comunidadesPorMunicipio`
by the joined key `state|municipality`. -/
structure ExtractedData where
  entidades : List String
  municipiosPorEntidad : List (String × List String)
  comunidadesPorMunicipio : List (String × List String)
  pueblos : List String
  features : List Feature
deriving DecidableEq, Repr

/-- Lookup `extractedData.municipiosPorEntidad.get(entidad) || new Set()`. -/
def municipiosOf (d : ExtractedData) (ent : String) : List String :=
  (d.municipiosPorEntidad.lookup ent).getD []

/-- Lookup `extractedData.comunidadesPorMunicipio.get(`${ent}|${mun}`) || new Set()`. -/
def comunidadesOf (d : ExtractedData) (ent mun : String) : List String :=
  (d.comunidadesPorMunicipio.lookup (ent ++ "|" ++ mun)).getD []

/-- Executable model of JavaScript `String.prototype.trim()`: drop leading
and trailing whitespace.  (Defined structurally over the character list so
that concrete selections evaluate inside the kernel.) -/
def strTrim (s : String) : String :=
  ⟨((s.data.dropWhile Char.isWhitespace).reverse.dropWhile Char.isWhitespace).reverse⟩

/-- JavaScript truthiness of `s && s.trim() !== ''`, the per-facet activation
test used by `getFilteredCount` and `applyMapFilters`. -/
def truthyTrim (s : String) : Bool :=
  s ≠ "" && strTrim s ≠ ""

/-- The sidebar counting predicate: the body of the `filter` callback inside
`getFilteredCount`.  Sequential early returns are modelled as a conjunction
of guarded checks; the community facet compares against the
`NOM_COM || NOM_LOC` fallback. -/
def matchesSidebar (filters : FilterState) (f : Feature) : Bool :=
  (!truthyTrim filters.entidad || f.props.NOM_ENT == filters.entidad) &&
  (!truthyTrim filters.municipio || f.props.NOM_MUN == filters.municipio) &&
  (!truthyTrim filters.comunidad || fallbackCom f.props == filters.comunidad) &&
  (!truthyTrim filters.pueblo || f.props.Pueblo == filters.pueblo)

/-- `getFilteredCount`: the number of features passing the sidebar predicate. -/
def getFilteredCount (d : ExtractedData) (filters : FilterState) : Nat :=
  (d.features.filter (matchesSidebar filters)).length

/-- The all-facets-blank test at the top of `applyMapFilters`
(`!filters.entidad?.trim() && ...`). -/
def allFiltersEmpty (filters : FilterState) : Bool :=
  strTrim filters.entidad == "" && strTrim filters.municipio == "" &&
  strTrim filters.comunidad == "" && strTrim filters.pueblo == ""

/-- Semantics, as a predicate on features, of the maplibre filter expression
assembled by `applyMapFilters`: `null` (all features visible) when every
facet is blank, otherwise the `['all', ...]` of one condition per active
facet; the community condition is `['any', NOM_COM == c, NOM_LOC == c]`. -/
def matchesMapFilter (filters : FilterState) (f : Feature) : Bool :=
  if allFiltersEmpty filters then true
  else
    (!truthyTrim filters.entidad || f.props.NOM_ENT == filters.entidad) &&
    (!truthyTrim filters.municipio || f.props.NOM_MUN == filters.municipio) &&
    (!truthyTrim filters.comunidad ||
      (f.props.NOM_COM == filters.comunidad || f.props.NOM_LOC == filters.comunidad)) &&
    (!truthyTrim filters.pueblo || f.props.Pueblo == filters.pueblo)

/-- The feature predicate used inside `applyFilterZoom` (plain truthiness,
no trimming, community fallback). -/
def zoomMatches (filters : FilterState) (f : Feature) : Bool :=
  (filters.entidad == "" || f.props.NOM_ENT == filters.entidad) &&
  (filters.municipio == "" || f.props.NOM_MUN == filters.municipio) &&
  (filters.comunidad == "" || fallbackCom f.props == filters.comunidad) &&
  (filters.pueblo == "" || f.props.Pueblo == filters.pueblo)

/-- The asymmetric padding profile passed to `fitBounds`. -/
structure MapPadding where
  top : Nat
  bottom : Nat
  left : Nat
  right : Nat
deriving DecidableEq, Repr

/-- The `maxZoom`/`padding` pair chosen by the tier chain of
`applyFilterZoom` (`if comunidad ... else if municipio ... else if entidad
... else` the defaults). -/
def zoomTierParams (filters : FilterState) : Nat × MapPadding :=
  if filters.comunidad ≠ "" then (16, ⟨100, 100, 100, 400⟩)
  else if filters.municipio ≠ "" then (12, ⟨80, 80, 80, 380⟩)
  else if filters.entidad ≠ "" then (9, ⟨60, 60, 60, 360⟩)
  else (16, ⟨50, 50, 50, 350⟩)

/-- `applyFilterZoom`: filter the extracted features with the zoom
predicate; if none match, return early with no camera recommendation,
otherwise recommend the tier parameters for the current selection. -/
def applyFilterZoom (d : ExtractedData) (filters : FilterState) :
    Option (Nat × MapPadding) :=
  let matched := d.features.filter (zoomMatches filters)
  if matched.isEmpty then none else some (zoomTierParams filters)

/-- The most specific non-empty hierarchical facet of a selection,
mirroring the order of the tier chain in `applyFilterZoom`. -/
inductive HierTier where
  | comunidad
  | municipio
  | entidad
  | ninguno
deriving DecidableEq, Repr

/-- Most specific non-empty hierarchical facet (community > municipality >
state > none); `pueblo` is ignored. -/
def mostSpecificTier (filters : FilterState) : HierTier :=
  if filters.comunidad ≠ "" then .comunidad
  else if filters.municipio ≠ "" then .municipio
  else if filters.entidad ≠ "" then .entidad
  else .ninguno

/-- The `maxZoom`/padding settings of each of the four tiers. -/
def tierSettings : HierTier → Nat × MapPadding
  | .comunidad => (16, ⟨100, 100, 100, 400⟩)
  | .municipio => (12, ⟨80, 80, 80, 380⟩)
  | .entidad => (9, ⟨60, 60, 60, 360⟩)
  | .ninguno => (16, ⟨50, 50, 50, 350⟩)

/-- The `(state, people)` compatibility scan used by `synchronizeFilters`
when editing `entidad` (and as the first step of the `pueblo` cascade):
`extractedData.features.some(f => f.properties.NOM_ENT === e && f.properties.Pueblo === p)`. -/
def entPeopleCompat (d : ExtractedData) (e p : String) : Bool :=
  d.features.any fun f => f.props.NOM_ENT == e && f.props.Pueblo == p

/-- The `(state, municipality, people)` compatibility scan. -/
def munPeopleCompat (d : ExtractedData) (e m p : String) : Bool :=
  d.features.any fun f =>
    f.props.NOM_ENT == e && f.props.NOM_MUN == m && f.props.Pueblo == p

/-- The `(state, municipality, community, people)` compatibility scan; the
community side uses the `NOM_COM || NOM_LOC` fallback. -/
def comPeopleCompat (d : ExtractedData) (e m c p : String) : Bool :=
  d.features.any fun f =>
    f.props.NOM_ENT == e && f.props.NOM_MUN == m &&
    fallbackCom f.props == c && f.props.Pueblo == p

/-- The `esPuebloCompatible` scan of the `pueblo` branch of
`synchronizeFilters`: AND over whichever hierarchical facets are non-empty,
plus the people equality. -/
def hierPeopleCompat (d : ExtractedData) (e m c p : String) : Bool :=
  d.features.any fun f =>
    (e == "" || f.props.NOM_ENT == e) &&
    (m == "" || f.props.NOM_MUN == m) &&
    (c == "" || fallbackCom f.props == c) &&
    f.props.Pueblo == p

/-- The `field === 'entidad'` branch of `synchronizeFilters`: clear
`municipio` and `comunidad`; if a `pueblo` is selected and no feature pairs
the new state with it, clear `pueblo` too. -/
def syncEntidad (d : ExtractedData) (value : String) (s : FilterState) : FilterState :=
  let nf : FilterState := ⟨value, "", "", s.pueblo⟩
  if nf.pueblo ≠ "" then
    if entPeopleCompat d value nf.pueblo then nf else ⟨value, "", "", ""⟩
  else nf

/-- The `field === 'municipio'` branch of `synchronizeFilters`: clear
`comunidad`; if `pueblo` and `entidad` are set and no feature matches
`(entidad, new municipio, pueblo)`, clear `pueblo`. -/
def syncMunicipio (d : ExtractedData) (value : String) (s : FilterState) : FilterState :=
  let nf : FilterState := ⟨s.entidad, value, "", s.pueblo⟩
  if nf.pueblo ≠ "" ∧ nf.entidad ≠ "" then
    if munPeopleCompat d nf.entidad value nf.pueblo then nf
    else ⟨s.entidad, value, "", ""⟩
  else nf

/-- The `field === 'comunidad'` branch of `synchronizeFilters`: if `pueblo`,
`entidad` and `municipio` are set and no feature matches the full quadruple
(with community fallback), clear `pueblo`. -/
def syncComunidad (d : ExtractedData) (value : String) (s : FilterState) : FilterState :=
  let nf : FilterState := ⟨s.entidad, s.municipio, value, s.pueblo⟩
  if nf.pueblo ≠ "" ∧ nf.entidad ≠ "" ∧ nf.municipio ≠ "" then
    if comPeopleCompat d nf.entidad nf.municipio value nf.pueblo then nf
    else ⟨s.entidad, s.municipio, value, ""⟩
  else nf

/-- The `field === 'pueblo'` branch of `synchronizeFilters`.  A non-blank
value never auto-fills the hierarchy; when the current hierarchical facets
are incompatible with the new people value the code clears them top-down
with three sequential guarded scans (state, then municipality, then
community).  A blank value keeps the hierarchical facets as they are. -/
def syncPueblo (d : ExtractedData) (value : String) (s : FilterState) : FilterState :=
  if value ≠ "" ∧ strTrim value ≠ "" then
    if s.entidad ≠ "" ∨ s.municipio ≠ "" ∨ s.comunidad ≠ "" then
      if hierPeopleCompat d s.entidad s.municipio s.comunidad value then
        ⟨s.entidad, s.municipio, s.comunidad, value⟩
      else
        let nf1 : FilterState :=
          if s.entidad ≠ "" ∧ entPeopleCompat d s.entidad value = false then
            ⟨"", "", "", value⟩
          else ⟨s.entidad, s.municipio, s.comunidad, value⟩
        let nf2 : FilterState :=
          if nf1.entidad ≠ "" ∧ s.municipio ≠ "" ∧
              munPeopleCompat d nf1.entidad s.municipio value = false then
            ⟨nf1.entidad, "", "", value⟩
          else nf1
        let nf3 : FilterState :=
          if nf2.entidad ≠ "" ∧ nf2.municipio ≠ "" ∧ s.comunidad ≠ "" ∧
              comPeopleCompat d nf2.entidad nf2.municipio s.comunidad value = false then
            ⟨nf2.entidad, nf2.municipio, "", value⟩
          else nf2
        nf3
    else ⟨s.entidad, s.municipio, s.comunidad, value⟩
  else ⟨s.entidad, s.municipio, s.comunidad, value⟩

/-- The final `hasAnyFilter` normalization of `synchronizeFilters`: if every
facet ended up empty, return the canonical all-empty selection. -/
def normalizeFilters (s : FilterState) : FilterState :=
  if s.entidad == "" && s.municipio == "" && s.comunidad == "" && s.pueblo == "" then
    ⟨"", "", "", ""⟩
  else s

/-- The body of `synchronizeFilters` once `extractedData` is known to be
present: dispatch on the edited facet, then normalize. -/
def syncCore (d : ExtractedData) (field : FilterField) (value : String)
    (s : FilterState) : FilterState :=
  normalizeFilters
    (match field with
     | .entidad => syncEntidad d value s
     | .municipio => syncMunicipio d value s
     | .comunidad => syncComunidad d value s
     | .pueblo => syncPueblo d value s)

/-- `synchronizeFilters(field, value, currentFilters)`: when no extracted
data is available the input selection is returned unchanged, otherwise the
core reconciliation runs. -/
def synchronizeFilters (data : Option ExtractedData) (field : FilterField)
    (value : String) (current : FilterState) : FilterState :=
  match data with
  | none => current
  | some d => syncCore d field value current

/-- `validateFilters(currentFilters)`: the index-membership validation pass
run after a data (re)load.  Four sequential guarded clears: unknown state
clears state, municipality and community; unknown municipality under the
surviving state clears municipality and community; unknown community under
the surviving pair clears community; unknown people clears people. -/
def validateFilters (data : Option ExtractedData) (s : FilterState) : FilterState :=
  match data with
  | none => s
  | some d =>
    let v1 : FilterState :=
      if s.entidad ≠ "" ∧ d.entidades.contains s.entidad = false then
        ⟨"", "", "", s.pueblo⟩
      else s
    let v2 : FilterState :=
      if v1.entidad ≠ "" ∧ v1.municipio ≠ "" ∧
          (municipiosOf d v1.entidad).contains v1.municipio = false then
        ⟨v1.entidad, "", "", v1.pueblo⟩
      else v1
    let v3 : FilterState :=
      if v2.entidad ≠ "" ∧ v2.municipio ≠ "" ∧ v2.comunidad ≠ "" ∧
          (comunidadesOf d v2.entidad v2.municipio).contains v2.comunidad = false then
        ⟨v2.entidad, v2.municipio, "", v2.pueblo⟩
      else v2
    if v3.pueblo ≠ "" ∧ d.pueblos.contains v3.pueblo = false then
      ⟨v3.entidad, v3.municipio, v3.comunidad, ""⟩
    else v3

/-- Insertion into a JavaScript `Set` modelled over a list: append the value
unless it is already present (first-insertion order preserved). -/
def insertUniq (l : List String) (x : String) : List String :=
  if l.contains x then l else l ++ [x]

/-- A `features.forEach(... set.add(val) ...)` accumulation: collect, in
first-occurrence order and without duplicates, `val f` over the features
satisfying `cond`. -/
def collectVals (fs : List Feature) (cond : Feature → Bool) (val : Feature → String) :
    List String :=
  fs.foldl (fun acc f => if cond f then insertUniq acc (val f) else acc) []

/-- The `sortedEntidades` option list (sorting omitted, see header): with a
selected `pueblo`, the states owning a feature of that people; otherwise all
indexed states. -/
def sortedEntidades (d : ExtractedData) (filters : FilterState) : List String :=
  if filters.pueblo ≠ "" then
    collectVals d.features
      (fun f => f.props.Pueblo == filters.pueblo && f.props.NOM_ENT != "")
      (fun f => f.props.NOM_ENT)
  else d.entidades

/-- The `sortedMunicipios` option list: empty without a state; with a
selected `pueblo`, the municipalities of the state owning a feature of that
people; otherwise the indexed municipalities of the state. -/
def sortedMunicipios (d : ExtractedData) (filters : FilterState) : List String :=
  if filters.entidad = "" then []
  else if filters.pueblo ≠ "" then
    collectVals d.features
      (fun f => f.props.Pueblo == filters.pueblo &&
        f.props.NOM_ENT == filters.entidad && f.props.NOM_MUN != "")
      (fun f => f.props.NOM_MUN)
  else municipiosOf d filters.entidad

/-- The `sortedComunidades` option list: empty without a state and a
municipality; with a selected `pueblo`, the fallback community names of the
matching features; otherwise the indexed communities of the pair. -/
def sortedComunidades (d : ExtractedData) (filters : FilterState) : List String :=
  if filters.entidad = "" ∨ filters.municipio = "" then []
  else if filters.pueblo ≠ "" then
    collectVals d.features
      (fun f => f.props.Pueblo == filters.pueblo &&
        f.props.NOM_ENT == filters.entidad &&
        f.props.NOM_MUN == filters.municipio && fallbackCom f.props != "")
      (fun f => fallbackCom f.props)
  else comunidadesOf d filters.entidad filters.municipio

/-- The `filteredPueblosByHierarchy` option list: all indexed peoples when
no hierarchical facet is set, otherwise the peoples of the features matching
the non-empty hierarchical facets (community via fallback). -/
def filteredPueblosByHierarchy (d : ExtractedData) (filters : FilterState) : List String :=
  if filters.entidad = "" ∧ filters.municipio = "" ∧ filters.comunidad = "" then
    d.pueblos
  else
    collectVals d.features
      (fun f =>
        (filters.entidad == "" || f.props.NOM_ENT == filters.entidad) &&
        (filters.municipio == "" || f.props.NOM_MUN == filters.municipio) &&
        (filters.comunidad == "" || fallbackCom f.props == filters.comunidad) &&
        f.props.Pueblo != "")
      (fun f => f.props.Pueblo)

/-- The deduplication key of `extractLayerData`:
`f?.properties?.[ID_KEY] ?? f?.id`, coerced to a string, with `''` (or a
missing id) meaning "never deduplicate this record". -/
def dedupId (f : Feature) : String :=
  match f.props.ID with
  | some s => s
  | none =>
    match f.fid with
    | some s => s
    | none => ""

/-- The `allFeatures.filter(...)` deduplication pass with its mutable
`seen` set made explicit: keep a record whose id is blank; drop a record
whose id was already seen; otherwise keep it and remember the id. -/
def dedupeGo (seen : List String) : List Feature → List Feature
  | [] => []
  | f :: rest =>
    let id := dedupId f
    if id = "" then f :: dedupeGo seen rest
    else if seen.contains id then dedupeGo seen rest
    else f :: dedupeGo (id :: seen) rest

/-- `uniqueFeatures`: deduplicate a raw feature list by record id, keeping
the first occurrence of each id. -/
def uniqueFeatures (l : List Feature) : List Feature :=
  dedupeGo [] l

/-- The Boolean form of the hierarchical containment invariant: a non-empty
municipality needs a non-empty state with the pair present in
`municipiosPorEntidad`; a non-empty community additionally needs the
community present in `comunidadesPorMunicipio` under that pair. -/
def pairInIndex (d : ExtractedData) (e m : String) : Bool :=
  e != "" && m != "" && (municipiosOf d e).contains m

/-- Hierarchical containment invariant of a selection against an index. -/
def invariantB (d : ExtractedData) (s : FilterState) : Bool :=
  (s.municipio == "" || pairInIndex d s.entidad s.municipio) &&
  (s.comunidad == "" ||
    (pairInIndex d s.entidad s.municipio &&
      (comunidadesOf d s.entidad s.municipio).contains s.comunidad))

/-- The three-feature example index of the specification: F1 and F2 in
Oaxaca/Juchitán with people Zapoteco, F3 in Chiapas/Z with people Tzotzil. -/
def demoIndex : ExtractedData where
  entidades := ["Oaxaca", "Chiapas"]
  municipiosPorEntidad := [("Oaxaca", ["Juchitán"]), ("Chiapas", ["Z"])]
  comunidadesPorMunicipio := [("Oaxaca|Juchitán", ["X", "Y"]), ("Chiapas|Z", ["W"])]
  pueblos := ["Zapoteco", "Tzotzil"]
  features :=
    [⟨{ NOM_ENT := "Oaxaca", NOM_MUN := "Juchitán", NOM_COM := "X", Pueblo := "Zapoteco" }, none⟩,
     ⟨{ NOM_ENT := "Oaxaca", NOM_MUN := "Juchitán", NOM_COM := "Y", Pueblo := "Zapoteco" }, none⟩,
     ⟨{ NOM_ENT := "Chiapas", NOM_MUN := "Z", NOM_COM := "W", Pueblo := "Tzotzil" }, none⟩]

/-- A two-state index in which the people `P` lives in both states but under
different municipalities; used to probe the option-list guarantee. -/
def pairIndex : ExtractedData where
  entidades := ["E1", "E2"]
  municipiosPorEntidad := [("E1", ["M1"]), ("E2", ["M2"])]
  comunidadesPorMunicipio := [("E1|M1", ["C1"]), ("E2|M2", ["C2"])]
  pueblos := ["P"]
  features :=
    [⟨{ NOM_ENT := "E1", NOM_MUN := "M1", NOM_COM := "C1", Pueblo := "P" }, none⟩,
     ⟨{ NOM_ENT := "E2", NOM_MUN := "M2", NOM_COM := "C2", Pueblo := "P" }, none⟩]

/-- A raw feature list with one duplicated record id and two blank-id
records, for exercising the deduplication pass. -/
def dupList : List Feature :=
  [⟨{ NOM_ENT := "a", ID := some "1" }, none⟩,
   ⟨{ NOM_ENT := "b", ID := some "1" }, none⟩,
   ⟨{ NOM_ENT := "c" }, none⟩,
   ⟨{ NOM_ENT := "c" }, none⟩]

/-! ## General helper lemmas -/

theorem contains_mem (l : List String) (x : String) : l.contains x = true ↔ x ∈ l := by
  simp [List.contains]

theorem length_filter_mono {α : Type} (p q : α → Bool) (l : List α)
    (h : ∀ a, p a = true → q a = true) :
    (l.filter p).length ≤ (l.filter q).length := by
  induction l with
  | nil => simp
  | cons a t ih =>
    rw [List.filter_cons, List.filter_cons]
    by_cases hp : p a = true
    · rw [if_pos hp, if_pos (h a hp)]
      simpa using ih
    · rw [if_neg hp]
      split
      · exact Nat.le_trans ih (by simp)
      · exact ih

theorem truthyTrim_spec (s : String) : truthyTrim s = true ↔ s ≠ "" ∧ strTrim s ≠ "" := by
  simp [truthyTrim]

theorem truthyTrim_empty : truthyTrim "" = false := by decide

theorem truthyTrim_ne (s : String) (h : truthyTrim s = true) : s ≠ "" :=
  ((truthyTrim_spec s).mp h).1

theorem truthyTrim_of_trim (s : String) (h : strTrim s = "") : truthyTrim s = false := by
  simp [truthyTrim, h]

theorem strTrim_of_empty : strTrim "" = "" := by decide

theorem count_pos_of_match (d : ExtractedData) (sel : FilterState) (f : Feature)
    (hf : f ∈ d.features) (hm : matchesSidebar sel f = true) :
    0 < getFilteredCount d sel := by
  have hmem : f ∈ d.features.filter (matchesSidebar sel) := List.mem_filter.mpr ⟨hf, hm⟩
  exact List.length_pos.mpr (List.ne_nil_of_mem hmem)

theorem matchesSidebar_of (sel : FilterState) (f : Feature)
    (h1 : sel.entidad = "" ∨ f.props.NOM_ENT = sel.entidad)
    (h2 : sel.municipio = "" ∨ f.props.NOM_MUN = sel.municipio)
    (h3 : sel.comunidad = "" ∨ fallbackCom f.props = sel.comunidad)
    (h4 : sel.pueblo = "" ∨ f.props.Pueblo = sel.pueblo) :
    matchesSidebar sel f = true := by
  have g : ∀ (v fv : String), v = "" ∨ fv = v → (!truthyTrim v || fv == v) = true := by
    intro v fv h
    rcases h with h | h
    · subst h
      simp [truthyTrim_empty]
    · subst h
      simp
  unfold matchesSidebar
  rw [g _ _ h1, g _ _ h2, g _ _ h3, g _ _ h4]
  rfl

theorem normalizeFilters_id (s : FilterState) : normalizeFilters s = s := by
  obtain ⟨e, m, c, p⟩ := s
  unfold normalizeFilters
  split
  · next h =>
    simp only [Bool.and_eq_true, beq_iff_eq] at h
    obtain ⟨he, hm, hc, hp⟩ := h
    simp_all
  · rfl

theorem syncCore_entidad (d : ExtractedData) (v : String) (s : FilterState) :
    syncCore d .entidad v s = syncEntidad d v s := by
  unfold syncCore
  exact normalizeFilters_id _

theorem syncCore_municipio (d : ExtractedData) (v : String) (s : FilterState) :
    syncCore d .municipio v s = syncMunicipio d v s := by
  unfold syncCore
  exact normalizeFilters_id _

theorem syncCore_comunidad (d : ExtractedData) (v : String) (s : FilterState) :
    syncCore d .comunidad v s = syncComunidad d v s := by
  unfold syncCore
  exact normalizeFilters_id _

theorem syncCore_pueblo (d : ExtractedData) (v : String) (s : FilterState) :
    syncCore d .pueblo v s = syncPueblo d v s := by
  unfold syncCore
  exact normalizeFilters_id _

theorem entPeopleCompat_iff (d : ExtractedData) (e p : String) :
    entPeopleCompat d e p = true ↔
      ∃ f ∈ d.features, f.props.NOM_ENT = e ∧ f.props.Pueblo = p := by
  simp [entPeopleCompat, List.any_eq_true, Bool.and_eq_true]

theorem munPeopleCompat_iff (d : ExtractedData) (e m p : String) :
    munPeopleCompat d e m p = true ↔
      ∃ f ∈ d.features,
        f.props.NOM_ENT = e ∧ f.props.NOM_MUN = m ∧ f.props.Pueblo = p := by
  simp [munPeopleCompat, List.any_eq_true, Bool.and_eq_true, and_assoc]

theorem comPeopleCompat_iff (d : ExtractedData) (e m c p : String) :
    comPeopleCompat d e m c p = true ↔
      ∃ f ∈ d.features,
        f.props.NOM_ENT = e ∧ f.props.NOM_MUN = m ∧
        fallbackCom f.props = c ∧ f.props.Pueblo = p := by
  simp [comPeopleCompat, List.any_eq_true, Bool.and_eq_true, and_assoc]

theorem hierPeopleCompat_iff (d : ExtractedData) (e m c p : String) :
    hierPeopleCompat d e m c p = true ↔
      ∃ f ∈ d.features,
        (e = "" ∨ f.props.NOM_ENT = e) ∧ (m = "" ∨ f.props.NOM_MUN = m) ∧
        (c = "" ∨ fallbackCom f.props = c) ∧ f.props.Pueblo = p := by
  simp [hierPeopleCompat, List.any_eq_true, Bool.and_eq_true, Bool.or_eq_true, and_assoc]

theorem hier_of_ent (d : ExtractedData) (e p : String)
    (h : entPeopleCompat d e p = true) : hierPeopleCompat d e "" "" p = true := by
  rw [entPeopleCompat_iff] at h
  rw [hierPeopleCompat_iff]
  obtain ⟨f, hf, h1, h2⟩ := h
  exact ⟨f, hf, Or.inr h1, Or.inl rfl, Or.inl rfl, h2⟩

theorem hier_of_mun (d : ExtractedData) (e m p : String)
    (h : munPeopleCompat d e m p = true) : hierPeopleCompat d e m "" p = true := by
  rw [munPeopleCompat_iff] at h
  rw [hierPeopleCompat_iff]
  obtain ⟨f, hf, h1, h2, h3⟩ := h
  exact ⟨f, hf, Or.inr h1, Or.inr h2, Or.inl rfl, h3⟩

theorem hier_of_com (d : ExtractedData) (e m c p : String)
    (h : comPeopleCompat d e m c p = true) : hierPeopleCompat d e m c p = true := by
  rw [comPeopleCompat_iff] at h
  rw [hierPeopleCompat_iff]
  obtain ⟨f, hf, h1, h2, h3, h4⟩ := h
  exact ⟨f, hf, Or.inr h1, Or.inr h2, Or.inr h3, h4⟩

theorem ent_of_hier (d : ExtractedData) (e m c p : String) (he : e ≠ "")
    (h : hierPeopleCompat d e m c p = true) : entPeopleCompat d e p = true := by
  rw [hierPeopleCompat_iff] at h
  rw [entPeopleCompat_iff]
  obtain ⟨f, hf, h1, _, _, h4⟩ := h
  exact ⟨f, hf, h1.resolve_left he, h4⟩

theorem mun_of_hier (d : ExtractedData) (e m c p : String) (he : e ≠ "") (hm : m ≠ "")
    (h : hierPeopleCompat d e m c p = true) : munPeopleCompat d e m p = true := by
  rw [hierPeopleCompat_iff] at h
  rw [munPeopleCompat_iff]
  obtain ⟨f, hf, h1, h2, _, h4⟩ := h
  exact ⟨f, hf, h1.resolve_left he, h2.resolve_left hm, h4⟩

theorem com_of_hier (d : ExtractedData) (e m c p : String)
    (he : e ≠ "") (hm : m ≠ "") (hc : c ≠ "")
    (h : hierPeopleCompat d e m c p = true) : comPeopleCompat d e m c p = true := by
  rw [hierPeopleCompat_iff] at h
  rw [comPeopleCompat_iff]
  obtain ⟨f, hf, h1, h2, h3, h4⟩ := h
  exact ⟨f, hf, h1.resolve_left he, h2.resolve_left hm, h3.resolve_left hc, h4⟩

theorem zoomTierParams_eq (s : FilterState) :
    zoomTierParams s = tierSettings (mostSpecificTier s) := by
  unfold zoomTierParams mostSpecificTier
  by_cases h1 : s.comunidad ≠ ""
  · simp [h1, tierSettings]
  · by_cases h2 : s.municipio ≠ ""
    · simp [h1, h2, tierSettings]
    · by_cases h3 : s.entidad ≠ ""
      · simp [h1, h2, h3, tierSettings]
      · simp [h1, h2, h3, tierSettings]

theorem invariantB_ignores_pueblo (d : ExtractedData) (e m c p q : String) :
    invariantB d ⟨e, m, c, p⟩ = invariantB d ⟨e, m, c, q⟩ := rfl

/-! ## Claim C10 -/

/-- C10: when no feature index is available (`extractedData` is `null`),
reconciling any edit returns the input selection completely unchanged — the
edited value is dropped and no facet is cleared. -/
theorem c10_no_index_noop (field : FilterField) (value : String) (s : FilterState) :
    synchronizeFilters none field value s = s := rfl

/-! ## Claim C7 -/

/-- C7: the viewport policy of `applyFilterZoom` has exactly four tiers
(the four `tierSettings` values are pairwise distinct) keyed solely by the
most specific non-empty hierarchical facet (community > municipality >
state > none): whenever a recommendation is produced it equals the tier
settings of `mostSpecificTier`, and a selection with only `pueblo` set is
keyed to the "none" tier regardless of how many features it matches. -/
theorem c7_viewport_tiers :
    (∀ (d : ExtractedData) (s : FilterState) (r : Nat × MapPadding),
      applyFilterZoom d s = some r → r = tierSettings (mostSpecificTier s)) ∧
    Function.Injective tierSettings ∧
    (∀ p : String, mostSpecificTier ⟨"", "", "", p⟩ = HierTier.ninguno) := by
  refine ⟨?_, ?_, ?_⟩
  · intro d s r h
    unfold applyFilterZoom at h
    by_cases he : (d.features.filter (zoomMatches s)).isEmpty = true
    · simp [he] at h
    · rw [if_neg he, Option.some.injEq] at h
      rw [← h]
      exact zoomTierParams_eq s
  · intro a b hab
    cases a <;> cases b <;> simp_all [tierSettings]
  · intro p
    unfold mostSpecificTier
    simp

/-- C7 witness: a people-only selection over the example index matches one
feature and is recommended the "none" tier (maxZoom 16, padding
50/50/50/350). -/
theorem c7_viewport_tiers_witness :
    applyFilterZoom demoIndex ⟨"", "", "", "Tzotzil"⟩ = some (16, ⟨50, 50, 50, 350⟩) ∧
    (16, (⟨50, 50, 50, 350⟩ : MapPadding)) =
      tierSettings (mostSpecificTier ⟨"", "", "", "Tzotzil"⟩) :=
  ⟨by decide,
   c7_viewport_tiers.1 demoIndex ⟨"", "", "", "Tzotzil"⟩ (16, ⟨50, 50, 50, 350⟩) (by decide)⟩

/-! ## Claim C9 -/

/-- C9: monotonic narrowing — replacing any one empty facet of a selection
with a non-empty value never increases `getFilteredCount`. -/
theorem matchesSidebar_iff (sel : FilterState) (f : Feature) :
    matchesSidebar sel f = true ↔
      (!truthyTrim sel.entidad || f.props.NOM_ENT == sel.entidad) = true ∧
      (!truthyTrim sel.municipio || f.props.NOM_MUN == sel.municipio) = true ∧
      (!truthyTrim sel.comunidad || fallbackCom f.props == sel.comunidad) = true ∧
      (!truthyTrim sel.pueblo || f.props.Pueblo == sel.pueblo) = true := by
  unfold matchesSidebar
  simp [Bool.and_eq_true, and_assoc]

theorem c9_monotone_narrowing (d : ExtractedData) (s : FilterState)
    (field : FilterField) (v : String)
    (h0 : getFacet s field = "") (hv : v ≠ "") :
    getFilteredCount d (setFacet s field v) ≤ getFilteredCount d s := by
  unfold getFilteredCount
  apply length_filter_mono
  intro f hf
  cases field with
  | entidad =>
    rw [show setFacet s .entidad v = { s with entidad := v } from rfl,
      matchesSidebar_iff] at hf
    rw [matchesSidebar_iff]
    obtain ⟨_, h2, h3, h4⟩ := hf
    refine ⟨?_, h2, h3, h4⟩
    have h0e : s.entidad = "" := h0
    rw [h0e]
    simp [truthyTrim_empty]
  | municipio =>
    rw [show setFacet s .municipio v = { s with municipio := v } from rfl,
      matchesSidebar_iff] at hf
    rw [matchesSidebar_iff]
    obtain ⟨h1, _, h3, h4⟩ := hf
    refine ⟨h1, ?_, h3, h4⟩
    have h0m : s.municipio = "" := h0
    rw [h0m]
    simp [truthyTrim_empty]
  | comunidad =>
    rw [show setFacet s .comunidad v = { s with comunidad := v } from rfl,
      matchesSidebar_iff] at hf
    rw [matchesSidebar_iff]
    obtain ⟨h1, h2, _, h4⟩ := hf
    refine ⟨h1, h2, ?_, h4⟩
    have h0c : s.comunidad = "" := h0
    rw [h0c]
    simp [truthyTrim_empty]
  | pueblo =>
    rw [show setFacet s .pueblo v = { s with pueblo := v } from rfl,
      matchesSidebar_iff] at hf
    rw [matchesSidebar_iff]
    obtain ⟨h1, h2, h3, _⟩ := hf
    refine ⟨h1, h2, h3, ?_⟩
    have h0p : s.pueblo = "" := h0
    rw [h0p]
    simp [truthyTrim_empty]

/-- C9 witness: adding the people constraint "Zapoteco" to the Oaxaca-only
selection does not increase the count over the example index. -/
theorem c9_monotone_narrowing_witness :
    getFacet ⟨"Oaxaca", "", "", ""⟩ .pueblo = "" ∧
    getFilteredCount demoIndex ⟨"Oaxaca", "", "", "Zapoteco"⟩ ≤
      getFilteredCount demoIndex ⟨"Oaxaca", "", "", ""⟩ :=
  ⟨rfl, c9_monotone_narrowing demoIndex ⟨"Oaxaca", "", "", ""⟩ .pueblo "Zapoteco" rfl (by decide)⟩

/-! ## Claim C8 -/

theorem dedupeGo_filter_id (id : String) (hid : id ≠ "") :
    ∀ (seen : List String) (l : List Feature),
      (dedupeGo seen l).filter (fun g => dedupId g == id) =
        if seen.contains id then [] else
          (l.filter (fun g => dedupId g == id)).take 1 := by
  intro seen l
  induction l generalizing seen with
  | nil => simp [dedupeGo]
  | cons f rest ih =>
    unfold dedupeGo
    by_cases h1 : dedupId f = ""
    · rw [if_pos h1, List.filter_cons, List.filter_cons]
      have hne : ¬((dedupId f == id) = true) := by
        rw [h1, beq_iff_eq]
        exact fun hh => hid hh.symm
      rw [if_neg hne, if_neg hne]
      exact ih seen
    · rw [if_neg h1]
      by_cases h2 : seen.contains (dedupId f) = true
      · rw [if_pos h2, List.filter_cons]
        by_cases h3 : dedupId f = id
        · have hsc : seen.contains id = true := h3 ▸ h2
          rw [ih seen, if_pos hsc, if_pos hsc]
        · have hne : ¬((dedupId f == id) = true) := by
            rw [beq_iff_eq]
            exact h3
          rw [if_neg hne]
          exact ih seen
      · rw [if_neg h2, List.filter_cons, List.filter_cons]
        by_cases h3 : dedupId f = id
        · have hyes : (dedupId f == id) = true := by
            rw [beq_iff_eq]
            exact h3
          rw [if_pos hyes, if_pos hyes, ih (dedupId f :: seen)]
          have hin : (dedupId f :: seen).contains id = true := by
            rw [contains_mem, ← h3]
            exact List.mem_cons_self _ _
          rw [if_pos hin]
          have hsc : ¬(seen.contains id = true) := by
            intro hcc
            exact h2 (h3 ▸ hcc)
          rw [if_neg hsc]
          simp
        · have hne : ¬((dedupId f == id) = true) := by
            rw [beq_iff_eq]
            exact h3
          rw [if_neg hne, if_neg hne, ih (dedupId f :: seen)]
          have hcons : (dedupId f :: seen).contains id = seen.contains id := by
            by_cases hs : id ∈ seen
            · rw [(contains_mem _ _).mpr hs,
                (contains_mem _ _).mpr (List.mem_cons_of_mem _ hs)]
            · have a1 : seen.contains id = false := by
                rw [← Bool.not_eq_true, contains_mem]
                exact hs
              have a2 : (dedupId f :: seen).contains id = false := by
                rw [← Bool.not_eq_true, contains_mem]
                intro hmem
                rcases List.mem_cons.mp hmem with hh | hh
                · exact h3 hh.symm
                · exact hs hh
              rw [a1, a2]
          rw [hcons]

theorem dedupeGo_filter_blank :
    ∀ (seen : List String) (l : List Feature),
      (dedupeGo seen l).filter (fun g => dedupId g == "") =
        l.filter (fun g => dedupId g == "") := by
  intro seen l
  induction l generalizing seen with
  | nil => simp [dedupeGo]
  | cons f rest ih =>
    unfold dedupeGo
    by_cases h1 : dedupId f = ""
    · rw [if_pos h1, List.filter_cons, List.filter_cons]
      have hyes : (dedupId f == "") = true := by
        rw [beq_iff_eq]
        exact h1
      rw [if_pos hyes, if_pos hyes, ih seen]
    · rw [if_neg h1]
      have hne : ¬((dedupId f == "") = true) := by
        rw [beq_iff_eq]
        exact h1
      by_cases h2 : seen.contains (dedupId f) = true
      · rw [if_pos h2, List.filter_cons, if_neg hne]
        exact ih seen
      · rw [if_neg h2, List.filter_cons, List.filter_cons]
        rw [if_neg hne, if_neg hne]
        exact ih (dedupId f :: seen)

/-- C8: the deduplication pass of `extractLayerData` keeps exactly the
first occurrence of each non-blank record id (the survivors carrying a
given id are the first input record carrying it), and records with no
record id are all kept, never merged with each other. -/
theorem c8_dedup_keeps_first :
    (∀ (l : List Feature) (id : String), id ≠ "" →
      (uniqueFeatures l).filter (fun g => dedupId g == id) =
        (l.filter (fun g => dedupId g == id)).take 1) ∧
    (∀ l : List Feature,
      (uniqueFeatures l).filter (fun g => dedupId g == "") =
        l.filter (fun g => dedupId g == "")) := by
  constructor
  · intro l id hid
    rw [show uniqueFeatures l = dedupeGo [] l from rfl]
    rw [dedupeGo_filter_id id hid [] l]
    rfl
  · intro l
    rw [show uniqueFeatures l = dedupeGo [] l from rfl]
    exact dedupeGo_filter_blank [] l

/-- C8 witness: over `dupList` (two records with id "1", two blank-id
records) the survivors with id "1" are exactly the first such record. -/
theorem c8_dedup_keeps_first_witness :
    ("1" : String) ≠ "" ∧
    (uniqueFeatures dupList).filter (fun g => dedupId g == "1") =
      (dupList.filter (fun g => dedupId g == "1")).take 1 :=
  ⟨by decide, c8_dedup_keeps_first.1 dupList "1" (by decide)⟩

/-! ## Claim C4 -/

/-- C4: editing the state facet unconditionally clears municipality and
community, sets the state to the new value, and clears people exactly when
people was set and no feature of the index carries both the new state and
that people value; moreover, on the three-feature example index, selecting
people "Tzotzil" and then editing state to "Oaxaca" leaves only
state = "Oaxaca" with the other three facets empty and a count of 2. -/
theorem c4_state_edit :
    (∀ (d : ExtractedData) (v : String) (s : FilterState),
      syncCore d .entidad v s =
        ⟨v, "", "",
          if s.pueblo ≠ "" ∧ entPeopleCompat d v s.pueblo = false then "" else s.pueblo⟩) ∧
    (syncCore demoIndex .pueblo "Tzotzil" ⟨"", "", "", ""⟩ = ⟨"", "", "", "Tzotzil"⟩ ∧
     syncCore demoIndex .entidad "Oaxaca" ⟨"", "", "", "Tzotzil"⟩ = ⟨"Oaxaca", "", "", ""⟩ ∧
     getFilteredCount demoIndex ⟨"Oaxaca", "", "", ""⟩ = 2) := by
  constructor
  · intro d v s
    rw [syncCore_entidad]
    unfold syncEntidad
    by_cases hp : s.pueblo = ""
    · simp [hp]
    · by_cases hcomp : entPeopleCompat d v s.pueblo = true
      · simp [hp, hcomp]
      · rw [Bool.not_eq_true] at hcomp
        simp [hp, hcomp]
  · exact ⟨by decide, by decide, by decide⟩

/-! ## Claim C3 -/

/-- C3: editing the people facet to a non-blank value never auto-fills the
hierarchical facets (all branches of the characterization keep or clear the
previous values, and with all three empty the selection is unchanged apart
from the new people value), and conflicts are resolved top-down: an
incompatible state clears state, municipality and community; else an
incompatible municipality clears municipality and community; else an
incompatible community clears only community; else the hierarchy is kept.
The hypotheses require the edited selection to be hierarchically
well-formed, as every Reconciler-produced selection is. -/
theorem c3_people_edit (d : ExtractedData) (s : FilterState) (v : String)
    (hv : strTrim v ≠ "")
    (hm : s.municipio ≠ "" → s.entidad ≠ "")
    (hc : s.comunidad ≠ "" → s.municipio ≠ "") :
    syncCore d .pueblo v s =
      if s.entidad ≠ "" ∧ entPeopleCompat d s.entidad v = false then
        ⟨"", "", "", v⟩
      else if s.municipio ≠ "" ∧ munPeopleCompat d s.entidad s.municipio v = false then
        ⟨s.entidad, "", "", v⟩
      else if s.comunidad ≠ "" ∧
          comPeopleCompat d s.entidad s.municipio s.comunidad v = false then
        ⟨s.entidad, s.municipio, "", v⟩
      else ⟨s.entidad, s.municipio, s.comunidad, v⟩ := by
  have hv0 : v ≠ "" := by
    intro h
    rw [h, strTrim_of_empty] at hv
    exact hv rfl
  rw [syncCore_pueblo]
  unfold syncPueblo
  rw [if_pos ⟨hv0, hv⟩]
  by_cases he : s.entidad = ""
  · have hm0 : s.municipio = "" := by
      by_contra hh
      exact (hm hh) he
    have hc0 : s.comunidad = "" := by
      by_contra hh
      exact (hc hh) hm0
    have r0 : ¬(s.entidad ≠ "" ∨ s.municipio ≠ "" ∨ s.comunidad ≠ "") := by
      simp [he, hm0, hc0]
    have r1 : ¬(s.entidad ≠ "" ∧ entPeopleCompat d s.entidad v = false) := by
      simp [he]
    have r2 : ¬(s.municipio ≠ "" ∧ munPeopleCompat d s.entidad s.municipio v = false) := by
      simp [hm0]
    have r3 : ¬(s.comunidad ≠ "" ∧
        comPeopleCompat d s.entidad s.municipio s.comunidad v = false) := by
      simp [hc0]
    rw [if_neg r0, if_neg r1, if_neg r2, if_neg r3]
  · rw [if_pos (Or.inl he)]
    by_cases hfull : hierPeopleCompat d s.entidad s.municipio s.comunidad v = true
    · rw [if_pos hfull]
      have h1 : entPeopleCompat d s.entidad v = true :=
        ent_of_hier d s.entidad s.municipio s.comunidad v he hfull
      have r1 : ¬(s.entidad ≠ "" ∧ entPeopleCompat d s.entidad v = false) := by
        simp [h1]
      have r2 : ¬(s.municipio ≠ "" ∧ munPeopleCompat d s.entidad s.municipio v = false) := by
        rintro ⟨hm1, hmf⟩
        rw [mun_of_hier d s.entidad s.municipio s.comunidad v he hm1 hfull] at hmf
        exact Bool.noConfusion hmf
      have r3 : ¬(s.comunidad ≠ "" ∧
          comPeopleCompat d s.entidad s.municipio s.comunidad v = false) := by
        rintro ⟨hc1, hcf⟩
        rw [com_of_hier d s.entidad s.municipio s.comunidad v he (hc hc1) hc1 hfull] at hcf
        exact Bool.noConfusion hcf
      rw [if_neg r1, if_neg r2, if_neg r3]
    · rw [if_neg hfull]
      by_cases hent : entPeopleCompat d s.entidad v = true
      · by_cases hm1 : s.municipio = ""
        · have hc1 : s.comunidad = "" := by
            by_contra hh
            exact (hc hh) hm1
          exfalso
          apply hfull
          rw [hm1, hc1]
          exact hier_of_ent d s.entidad v hent
        · by_cases hmun : munPeopleCompat d s.entidad s.municipio v = true
          · by_cases hc1 : s.comunidad = ""
            · exfalso
              apply hfull
              rw [hc1]
              exact hier_of_mun d s.entidad s.municipio v hmun
            · by_cases hcom : comPeopleCompat d s.entidad s.municipio s.comunidad v = true
              · exact absurd
                  (hier_of_com d s.entidad s.municipio s.comunidad v hcom) hfull
              · rw [Bool.not_eq_true] at hcom
                simp [he, hm1, hc1, hent, hmun, hcom]
          · rw [Bool.not_eq_true] at hmun
            simp [he, hm1, hent, hmun]
      · rw [Bool.not_eq_true] at hent
        simp [he, hent]

/-- C3 witness: over the example index, editing people to "Zapoteco" with
state "Chiapas" selected clears the state (no Chiapas feature has people
Zapoteco) without auto-filling anything. -/
theorem c3_people_edit_witness :
    strTrim "Zapoteco" ≠ "" ∧
    syncCore demoIndex .pueblo "Zapoteco" ⟨"Chiapas", "", "", ""⟩ = ⟨"", "", "", "Zapoteco"⟩ :=
  ⟨by decide,
   (c3_people_edit demoIndex ⟨"Chiapas", "", "", ""⟩ "Zapoteco" (by decide)
      (fun h => absurd rfl h) (fun h => absurd rfl h)).trans (by decide)⟩

/-! ## Claim C1 -/

theorem invariantB_iff (d : ExtractedData) (s : FilterState) :
    invariantB d s = true ↔
      (s.municipio = "" ∨ pairInIndex d s.entidad s.municipio = true) ∧
      (s.comunidad = "" ∨ (pairInIndex d s.entidad s.municipio = true ∧
        (comunidadesOf d s.entidad s.municipio).contains s.comunidad = true)) := by
  simp [invariantB, Bool.and_eq_true, Bool.or_eq_true]

theorem pairInIndex_iff (d : ExtractedData) (e m : String) :
    pairInIndex d e m = true ↔
      e ≠ "" ∧ m ≠ "" ∧ (municipiosOf d e).contains m = true := by
  simp [pairInIndex, Bool.and_eq_true, bne_iff_ne, and_assoc]

theorem syncPueblo_shapes (d : ExtractedData) (v : String) (s : FilterState) :
    syncPueblo d v s = ⟨s.entidad, s.municipio, s.comunidad, v⟩ ∨
    syncPueblo d v s = ⟨s.entidad, s.municipio, "", v⟩ ∨
    syncPueblo d v s = ⟨s.entidad, "", "", v⟩ ∨
    syncPueblo d v s = ⟨"", "", "", v⟩ := by
  unfold syncPueblo
  by_cases h0 : v ≠ "" ∧ strTrim v ≠ ""
  · rw [if_pos h0]
    by_cases h1 : s.entidad ≠ "" ∨ s.municipio ≠ "" ∨ s.comunidad ≠ ""
    · rw [if_pos h1]
      by_cases h2 : hierPeopleCompat d s.entidad s.municipio s.comunidad v = true
      · rw [if_pos h2]
        exact Or.inl rfl
      · rw [if_neg h2]
        by_cases he : s.entidad = ""
        · simp [he]
        · by_cases hent : entPeopleCompat d s.entidad v = true
          · by_cases hm1 : s.municipio = ""
            · simp [he, hent, hm1]
            · by_cases hmun : munPeopleCompat d s.entidad s.municipio v = true
              · by_cases hc1 : s.comunidad = ""
                · simp [he, hent, hm1, hmun, hc1]
                · by_cases hcom :
                      comPeopleCompat d s.entidad s.municipio s.comunidad v = true
                  · simp [he, hent, hm1, hmun, hc1, hcom]
                  · rw [Bool.not_eq_true] at hcom
                    simp [he, hent, hm1, hmun, hc1, hcom]
              · rw [Bool.not_eq_true] at hmun
                simp [he, hent, hm1, hmun]
          · rw [Bool.not_eq_true] at hent
            simp [he, hent]
    · rw [if_neg h1]
      exact Or.inl rfl
  · rw [if_neg h0]
    exact Or.inl rfl

/-- C1 counterexample: the all-empty selection satisfies the invariant, but
reconciling the single-facet edit municipality := "Juchitán" against the
example index produces a selection with a non-empty municipality and an
empty state, which violates the invariant: the reconciler never validates
the edited municipality value itself. -/
theorem c1_hier_invariant_counterexample :
    invariantB demoIndex ⟨"", "", "", ""⟩ = true ∧
    syncCore demoIndex .municipio "Juchitán" ⟨"", "", "", ""⟩ = ⟨"", "Juchitán", "", ""⟩ ∧
    invariantB demoIndex ⟨"", "Juchitán", "", ""⟩ = false :=
  ⟨by decide, by decide, by decide⟩

/-- C1 (amended): the reconciler preserves the hierarchical containment
invariant for every edit of the state or people facets (any value), and for
edits of the municipality or community facets whose new value is either
empty or a currently legal option (municipality: the state is set and the
value is listed under it; community: the municipality is set and the value
is listed under the pair). -/
theorem c1_hier_invariant (d : ExtractedData) (s : FilterState)
    (field : FilterField) (v : String)
    (hs : invariantB d s = true)
    (hmun : field = .municipio →
      v = "" ∨ (s.entidad ≠ "" ∧ (municipiosOf d s.entidad).contains v = true))
    (hcom : field = .comunidad →
      v = "" ∨ (s.municipio ≠ "" ∧
        (comunidadesOf d s.entidad s.municipio).contains v = true)) :
    invariantB d (syncCore d field v s) = true := by
  cases field with
  | entidad =>
    rw [syncCore_entidad]
    have hres : ∃ x, syncEntidad d v s = ⟨v, "", "", x⟩ := by
      unfold syncEntidad
      by_cases hp : (⟨v, "", "", s.pueblo⟩ : FilterState).pueblo ≠ ""
      · rw [if_pos hp]
        by_cases hcompat :
            entPeopleCompat d v (⟨v, "", "", s.pueblo⟩ : FilterState).pueblo = true
        · rw [if_pos hcompat]
          exact ⟨s.pueblo, rfl⟩
        · rw [if_neg hcompat]
          exact ⟨"", rfl⟩
      · rw [if_neg hp]
        exact ⟨s.pueblo, rfl⟩
    obtain ⟨x, hx⟩ := hres
    rw [hx, invariantB_iff]
    exact ⟨Or.inl rfl, Or.inl rfl⟩
  | municipio =>
    rw [syncCore_municipio]
    have hres : ∃ x, syncMunicipio d v s = ⟨s.entidad, v, "", x⟩ := by
      unfold syncMunicipio
      by_cases hg : (⟨s.entidad, v, "", s.pueblo⟩ : FilterState).pueblo ≠ "" ∧
          (⟨s.entidad, v, "", s.pueblo⟩ : FilterState).entidad ≠ ""
      · rw [if_pos hg]
        by_cases hcompat :
            munPeopleCompat d (⟨s.entidad, v, "", s.pueblo⟩ : FilterState).entidad v
              (⟨s.entidad, v, "", s.pueblo⟩ : FilterState).pueblo = true
        · rw [if_pos hcompat]
          exact ⟨s.pueblo, rfl⟩
        · rw [if_neg hcompat]
          exact ⟨"", rfl⟩
      · rw [if_neg hg]
        exact ⟨s.pueblo, rfl⟩
    obtain ⟨x, hx⟩ := hres
    rw [hx, invariantB_iff]
    refine ⟨?_, Or.inl rfl⟩
    rcases hmun rfl with h | ⟨he, hvin⟩
    · exact Or.inl h
    · by_cases hveq : v = ""
      · exact Or.inl hveq
      · refine Or.inr ?_
        rw [pairInIndex_iff]
        exact ⟨he, hveq, hvin⟩
  | comunidad =>
    rw [syncCore_comunidad]
    have hres : ∃ x, syncComunidad d v s = ⟨s.entidad, s.municipio, v, x⟩ := by
      unfold syncComunidad
      by_cases hg : (⟨s.entidad, s.municipio, v, s.pueblo⟩ : FilterState).pueblo ≠ "" ∧
          (⟨s.entidad, s.municipio, v, s.pueblo⟩ : FilterState).entidad ≠ "" ∧
          (⟨s.entidad, s.municipio, v, s.pueblo⟩ : FilterState).municipio ≠ ""
      · rw [if_pos hg]
        by_cases hcompat :
            comPeopleCompat d (⟨s.entidad, s.municipio, v, s.pueblo⟩ : FilterState).entidad
              (⟨s.entidad, s.municipio, v, s.pueblo⟩ : FilterState).municipio v
              (⟨s.entidad, s.municipio, v, s.pueblo⟩ : FilterState).pueblo = true
        · rw [if_pos hcompat]
          exact ⟨s.pueblo, rfl⟩
        · rw [if_neg hcompat]
          exact ⟨"", rfl⟩
      · rw [if_neg hg]
        exact ⟨s.pueblo, rfl⟩
    obtain ⟨x, hx⟩ := hres
    rw [hx, invariantB_iff]
    rw [invariantB_iff] at hs
    obtain ⟨hs1, _⟩ := hs
    refine ⟨hs1, ?_⟩
    rcases hcom rfl with h | ⟨hm1, hvin⟩
    · exact Or.inl h
    · refine Or.inr ⟨?_, hvin⟩
      rcases hs1 with h | h
      · exact absurd h hm1
      · exact h
  | pueblo =>
    rw [syncCore_pueblo]
    rcases syncPueblo_shapes d v s with h | h | h | h <;> rw [h]
    · rw [invariantB_iff] at hs ⊢
      exact hs
    · rw [invariantB_iff] at hs ⊢
      exact ⟨hs.1, Or.inl rfl⟩
    · rw [invariantB_iff]
      exact ⟨Or.inl rfl, Or.inl rfl⟩
    · rw [invariantB_iff]
      exact ⟨Or.inl rfl, Or.inl rfl⟩

/-- C1 witness: starting from the invariant-satisfying selection
state = "Oaxaca" and editing municipality to the legal option "Juchitán",
the reconciled selection satisfies the invariant. -/
theorem c1_hier_invariant_witness :
    invariantB demoIndex ⟨"Oaxaca", "", "", ""⟩ = true ∧
    invariantB demoIndex
      (syncCore demoIndex .municipio "Juchitán" ⟨"Oaxaca", "", "", ""⟩) = true :=
  ⟨by decide,
   c1_hier_invariant demoIndex ⟨"Oaxaca", "", "", ""⟩ .municipio "Juchitán" (by decide)
     (fun _ => Or.inr ⟨by decide, by decide⟩) (fun h => FilterField.noConfusion h)⟩

/-! ## Claim C2 -/

/-- C2 counterexample: a feature with community "A" and locality "B", under
the selection community := "B", passes the map-layer filter (the `any`
condition matches NOM_LOC) but is not counted by the sidebar (the fallback
field is "A"): the two predicates disagree. -/
theorem c2_shared_predicate_counterexample :
    matchesMapFilter ⟨"", "", "B", ""⟩ ⟨{ NOM_COM := "A", NOM_LOC := "B" }, none⟩ = true ∧
    matchesSidebar ⟨"", "", "B", ""⟩ ⟨{ NOM_COM := "A", NOM_LOC := "B" }, none⟩ = false :=
  ⟨by decide, by decide⟩

theorem mapCom_eq_sidebarCom (c : String) (p : Props) (hcne : c ≠ "")
    (h : p.NOM_COM = "" ∨ p.NOM_LOC ≠ c ∨ p.NOM_COM = c) :
    (p.NOM_COM == c || p.NOM_LOC == c) = (fallbackCom p == c) := by
  unfold fallbackCom
  by_cases hcc : p.NOM_COM = ""
  · rw [if_pos hcc, hcc]
    have hz : ("" == c) = false := by
      rw [← Bool.not_eq_true, beq_iff_eq]
      exact fun hh => hcne hh.symm
    rw [hz, Bool.false_or]
  · rw [if_neg hcc]
    rcases h with h | h | h
    · exact absurd h hcc
    · have hl : (p.NOM_LOC == c) = false := by
        rw [← Bool.not_eq_true, beq_iff_eq]
        exact h
      rw [hl, Bool.or_false]
    · have hy : (p.NOM_COM == c) = true := by
        rw [beq_iff_eq]
        exact h
      rw [hy, Bool.true_or]

/-- C2 (amended): the map-layer filter of `applyMapFilters` and the sidebar
counting predicate of `getFilteredCount` agree on every feature except in
one community-facet case: when the community facet is active and the
feature has a non-empty NOM_COM different from the selected value while its
NOM_LOC equals it (then the map filter passes the feature and the sidebar
does not count it). -/
theorem c2_shared_predicate (filters : FilterState) (f : Feature)
    (h : truthyTrim filters.comunidad = true →
      f.props.NOM_COM = "" ∨ f.props.NOM_LOC ≠ filters.comunidad ∨
        f.props.NOM_COM = filters.comunidad) :
    matchesMapFilter filters f = matchesSidebar filters f := by
  unfold matchesMapFilter
  by_cases hempty : allFiltersEmpty filters = true
  · rw [if_pos hempty]
    unfold allFiltersEmpty at hempty
    rw [Bool.and_eq_true, Bool.and_eq_true, Bool.and_eq_true] at hempty
    obtain ⟨⟨⟨h1, h2⟩, h3⟩, h4⟩ := hempty
    rw [beq_iff_eq] at h1 h2 h3 h4
    have g1 : truthyTrim filters.entidad = false := truthyTrim_of_trim _ h1
    have g2 : truthyTrim filters.municipio = false := truthyTrim_of_trim _ h2
    have g3 : truthyTrim filters.comunidad = false := truthyTrim_of_trim _ h3
    have g4 : truthyTrim filters.pueblo = false := truthyTrim_of_trim _ h4
    symm
    rw [matchesSidebar_iff]
    exact ⟨by simp [g1], by simp [g2], by simp [g3], by simp [g4]⟩
  · rw [if_neg hempty]
    unfold matchesSidebar
    by_cases hact : truthyTrim filters.comunidad = true
    · rw [mapCom_eq_sidebarCom filters.comunidad f.props (truthyTrim_ne _ hact) (h hact)]
    · have hft : truthyTrim filters.comunidad = false := by
        rw [← Bool.not_eq_true]
        exact hact
      rw [hft]
      simp

/-- C2 witness: when the selected community equals the feature's NOM_COM,
the two predicates agree. -/
theorem c2_shared_predicate_witness :
    truthyTrim (⟨"", "", "A", ""⟩ : FilterState).comunidad = true ∧
    matchesMapFilter ⟨"", "", "A", ""⟩ ⟨{ NOM_COM := "A" }, none⟩ =
      matchesSidebar ⟨"", "", "A", ""⟩ ⟨{ NOM_COM := "A" }, none⟩ :=
  ⟨by decide,
   c2_shared_predicate ⟨"", "", "A", ""⟩ ⟨{ NOM_COM := "A" }, none⟩
     (fun _ => Or.inr (Or.inr rfl))⟩

/-! ## Claim C5 -/

theorem mem_insertUniq (l : List String) (x y : String) :
    y ∈ insertUniq l x ↔ y ∈ l ∨ y = x := by
  unfold insertUniq
  by_cases h : l.contains x = true
  · rw [if_pos h]
    constructor
    · exact fun hy => Or.inl hy
    · rintro (hy | rfl)
      · exact hy
      · exact (contains_mem l y).mp h
  · rw [if_neg h]
    simp [List.mem_append]

theorem mem_collect_aux (cond : Feature → Bool) (val : Feature → String) :
    ∀ (fs : List Feature) (acc : List String) (x : String),
      x ∈ fs.foldl (fun a f => if cond f then insertUniq a (val f) else a) acc ↔
        x ∈ acc ∨ ∃ f ∈ fs, cond f = true ∧ val f = x := by
  intro fs
  induction fs with
  | nil =>
    intro acc x
    simp
  | cons f rest ih =>
    intro acc x
    rw [List.foldl_cons]
    by_cases hc : cond f = true
    · rw [if_pos hc, ih, mem_insertUniq]
      constructor
      · rintro ((hy | rfl) | ⟨g, hg, hgc, hgv⟩)
        · exact Or.inl hy
        · exact Or.inr ⟨f, List.mem_cons_self f rest, hc, rfl⟩
        · exact Or.inr ⟨g, List.mem_cons_of_mem f hg, hgc, hgv⟩
      · rintro (hy | ⟨g, hg, hgc, hgv⟩)
        · exact Or.inl (Or.inl hy)
        · rcases List.mem_cons.mp hg with rfl | hg2
          · exact Or.inl (Or.inr hgv.symm)
          · exact Or.inr ⟨g, hg2, hgc, hgv⟩
    · rw [if_neg hc, ih]
      constructor
      · rintro (hy | ⟨g, hg, hgc, hgv⟩)
        · exact Or.inl hy
        · exact Or.inr ⟨g, List.mem_cons_of_mem f hg, hgc, hgv⟩
      · rintro (hy | ⟨g, hg, hgc, hgv⟩)
        · exact Or.inl hy
        · rcases List.mem_cons.mp hg with rfl | hg2
          · exact absurd hgc hc
          · exact Or.inr ⟨g, hg2, hgc, hgv⟩

theorem mem_collectVals (fs : List Feature) (cond : Feature → Bool)
    (val : Feature → String) (x : String) :
    x ∈ collectVals fs cond val ↔ ∃ f ∈ fs, cond f = true ∧ val f = x := by
  rw [collectVals, mem_collect_aux]
  simp

/-- C5 counterexample: over `pairIndex`, with the invariant-satisfying
selection (E1, M1, –, P), the state option list offers "E2" (people P also
lives in E2), yet substituting "E2" into the selection leaves zero matching
features: the resolver offers a dead-end choice when the selection has a
deeper facet set than the list being recomputed. -/
theorem c5_no_dead_end_counterexample :
    invariantB pairIndex ⟨"E1", "M1", "", "P"⟩ = true ∧
    "E2" ∈ sortedEntidades pairIndex ⟨"E1", "M1", "", "P"⟩ ∧
    getFilteredCount pairIndex ⟨"E2", "M1", "", "P"⟩ = 0 :=
  ⟨by decide, by decide, by decide⟩

/-- C5 (amended): provided the index entries relevant to the current
selection are carried verbatim by some feature (every indexed state, every
indexed municipality of the selected state, every indexed community of the
selected pair, every indexed people), each value offered by the four
option lists, substituted into the selection with the strictly-downstream
hierarchical facets cleared, matches at least one feature; plain
substitution without clearing can dead-end (see the counterexample). -/
theorem c5_no_dead_end (d : ExtractedData) (s : FilterState)
    (hent : ∀ e ∈ d.entidades, ∃ f ∈ d.features, f.props.NOM_ENT = e)
    (hmun : ∀ m ∈ municipiosOf d s.entidad,
      ∃ f ∈ d.features, f.props.NOM_ENT = s.entidad ∧ f.props.NOM_MUN = m)
    (hcom : ∀ c ∈ comunidadesOf d s.entidad s.municipio,
      ∃ f ∈ d.features, f.props.NOM_ENT = s.entidad ∧ f.props.NOM_MUN = s.municipio ∧
        fallbackCom f.props = c)
    (hpue : ∀ p ∈ d.pueblos, ∃ f ∈ d.features, f.props.Pueblo = p) :
    (∀ e ∈ sortedEntidades d s, 0 < getFilteredCount d ⟨e, "", "", s.pueblo⟩) ∧
    (∀ m ∈ sortedMunicipios d s, 0 < getFilteredCount d ⟨s.entidad, m, "", s.pueblo⟩) ∧
    (∀ c ∈ sortedComunidades d s,
      0 < getFilteredCount d ⟨s.entidad, s.municipio, c, s.pueblo⟩) ∧
    (∀ p ∈ filteredPueblosByHierarchy d s,
      0 < getFilteredCount d ⟨s.entidad, s.municipio, s.comunidad, p⟩) := by
  refine ⟨?_, ?_, ?_, ?_⟩
  · intro e he
    unfold sortedEntidades at he
    by_cases hp : s.pueblo ≠ ""
    · rw [if_pos hp, mem_collectVals] at he
      obtain ⟨f, hf, hcond, hval⟩ := he
      simp only [Bool.and_eq_true, beq_iff_eq, bne_iff_ne] at hcond
      obtain ⟨hc1, hc2⟩ := hcond
      exact count_pos_of_match d _ f hf
        (matchesSidebar_of _ f (Or.inr hval) (Or.inl rfl) (Or.inl rfl) (Or.inr hc1))
    · rw [if_neg hp] at he
      push_neg at hp
      obtain ⟨f, hf, hval⟩ := hent e he
      exact count_pos_of_match d _ f hf
        (matchesSidebar_of _ f (Or.inr hval) (Or.inl rfl) (Or.inl rfl) (Or.inl hp))
  · intro m hm
    unfold sortedMunicipios at hm
    by_cases he0 : s.entidad = ""
    · rw [if_pos he0] at hm
      exact absurd hm (List.not_mem_nil m)
    · rw [if_neg he0] at hm
      by_cases hp : s.pueblo ≠ ""
      · rw [if_pos hp, mem_collectVals] at hm
        obtain ⟨f, hf, hcond, hval⟩ := hm
        simp only [Bool.and_eq_true, beq_iff_eq, bne_iff_ne] at hcond
        obtain ⟨⟨hc1, hc2⟩, hc3⟩ := hcond
        exact count_pos_of_match d _ f hf
          (matchesSidebar_of _ f (Or.inr hc2) (Or.inr hval) (Or.inl rfl) (Or.inr hc1))
      · rw [if_neg hp] at hm
        push_neg at hp
        obtain ⟨f, hf, hv1, hv2⟩ := hmun m hm
        exact count_pos_of_match d _ f hf
          (matchesSidebar_of _ f (Or.inr hv1) (Or.inr hv2) (Or.inl rfl) (Or.inl hp))
  · intro c hcm
    unfold sortedComunidades at hcm
    by_cases hg : s.entidad = "" ∨ s.municipio = ""
    · rw [if_pos hg] at hcm
      exact absurd hcm (List.not_mem_nil c)
    · rw [if_neg hg] at hcm
      by_cases hp : s.pueblo ≠ ""
      · rw [if_pos hp, mem_collectVals] at hcm
        obtain ⟨f, hf, hcond, hval⟩ := hcm
        simp only [Bool.and_eq_true, beq_iff_eq, bne_iff_ne] at hcond
        obtain ⟨⟨⟨hc1, hc2⟩, hc3⟩, hc4⟩ := hcond
        exact count_pos_of_match d _ f hf
          (matchesSidebar_of _ f (Or.inr hc2) (Or.inr hc3) (Or.inr hval) (Or.inr hc1))
      · rw [if_neg hp] at hcm
        push_neg at hp
        obtain ⟨f, hf, hv1, hv2, hv3⟩ := hcom c hcm
        exact count_pos_of_match d _ f hf
          (matchesSidebar_of _ f (Or.inr hv1) (Or.inr hv2) (Or.inr hv3) (Or.inl hp))
  · intro p hpm
    unfold filteredPueblosByHierarchy at hpm
    by_cases hg : s.entidad = "" ∧ s.municipio = "" ∧ s.comunidad = ""
    · rw [if_pos hg] at hpm
      obtain ⟨hg1, hg2, hg3⟩ := hg
      obtain ⟨f, hf, hv⟩ := hpue p hpm
      exact count_pos_of_match d _ f hf
        (matchesSidebar_of _ f (Or.inl hg1) (Or.inl hg2) (Or.inl hg3) (Or.inr hv))
    · rw [if_neg hg, mem_collectVals] at hpm
      obtain ⟨f, hf, hcond, hval⟩ := hpm
      simp only [Bool.and_eq_true, Bool.or_eq_true, beq_iff_eq, bne_iff_ne] at hcond
      obtain ⟨⟨⟨hc1, hc2⟩, hc3⟩, hc4⟩ := hcond
      exact count_pos_of_match d _ f hf
        (matchesSidebar_of _ f hc1 hc2 hc3 (Or.inr hval))

/-- C5 witness: over the example index, with people "Tzotzil" selected and
no hierarchical facet, the offered state "Chiapas" matches a feature. -/
theorem c5_no_dead_end_witness :
    "Chiapas" ∈ sortedEntidades demoIndex ⟨"", "", "", "Tzotzil"⟩ ∧
    0 < getFilteredCount demoIndex ⟨"Chiapas", "", "", "Tzotzil"⟩ :=
  ⟨by decide,
   (c5_no_dead_end demoIndex ⟨"", "", "", "Tzotzil"⟩ (by decide) (by decide) (by decide)
     (by decide)).1 "Chiapas" (by decide)⟩

/-! ## Claim C6 -/

/-- C6 counterexample: after an index rebuild, the persisted selection
(state "Oaxaca", people "Tzotzil") passes `validateFilters` unchanged even
though no Oaxaca feature has people Tzotzil: the Reconciler's compatibility
check fails there, and the Reconciler itself (editing state to "Oaxaca")
would clear the people facet, so the validation pass is not equivalent to
re-running the Reconciler's compatibility checks. -/
theorem c6_validation_counterexample :
    validateFilters (some demoIndex) ⟨"Oaxaca", "", "", "Tzotzil"⟩ =
      ⟨"Oaxaca", "", "", "Tzotzil"⟩ ∧
    entPeopleCompat demoIndex "Oaxaca" "Tzotzil" = false ∧
    syncCore demoIndex .entidad "Oaxaca" ⟨"", "", "", "Tzotzil"⟩ ≠
      validateFilters (some demoIndex) ⟨"Oaxaca", "", "", "Tzotzil"⟩ :=
  ⟨by decide, by decide, by decide⟩

/-- C6 (amended): the validation pass on a persisted selection is a pure
index-membership cascade in the specification's rule order — an unknown
state clears state, municipality and community; a municipality not listed
under the surviving non-empty state clears municipality and community; a
community not listed under the surviving pair clears community; a people
value absent from the peoples set clears people — with no re-check of
people-versus-hierarchy compatibility against the feature list. -/
theorem c6_validation (d : ExtractedData) (s : FilterState) :
    validateFilters (some d) s =
      ⟨if s.entidad ≠ "" ∧ d.entidades.contains s.entidad = false then "" else s.entidad,
       if (s.entidad ≠ "" ∧ d.entidades.contains s.entidad = false) ∨
          (s.entidad ≠ "" ∧ s.municipio ≠ "" ∧
            (municipiosOf d s.entidad).contains s.municipio = false) then ""
        else s.municipio,
       if (s.entidad ≠ "" ∧ d.entidades.contains s.entidad = false) ∨
          (s.entidad ≠ "" ∧ s.municipio ≠ "" ∧
            (municipiosOf d s.entidad).contains s.municipio = false) ∨
          (s.entidad ≠ "" ∧ s.municipio ≠ "" ∧ s.comunidad ≠ "" ∧
            (comunidadesOf d s.entidad s.municipio).contains s.comunidad = false) then ""
        else s.comunidad,
       if s.pueblo ≠ "" ∧ d.pueblos.contains s.pueblo = false then "" else s.pueblo⟩ := by
  obtain ⟨e, m, c, p⟩ := s
  unfold validateFilters
  by_cases he : e = ""
  · by_cases hp : p = ""
    · simp [he, hp]
    · by_cases hpin : p ∈ d.pueblos
      · simp [he, hp, hpin]
      · simp [he, hp, hpin]
  · by_cases hein : e ∈ d.entidades
    · by_cases hm : m = ""
      · by_cases hp : p = ""
        · simp [he, hein, hm, hp]
        · by_cases hpin : p ∈ d.pueblos
          · simp [he, hein, hm, hp, hpin]
          · simp [he, hein, hm, hp, hpin]
      · by_cases hmin : m ∈ municipiosOf d e
        · by_cases hc : c = ""
          · by_cases hp : p = ""
            · simp [he, hein, hm, hmin, hc, hp]
            · by_cases hpin : p ∈ d.pueblos
              · simp [he, hein, hm, hmin, hc, hp, hpin]
              · simp [he, hein, hm, hmin, hc, hp, hpin]
          · by_cases hcin : c ∈ comunidadesOf d e m
            · by_cases hp : p = ""
              · simp [he, hein, hm, hmin, hc, hcin, hp]
              · by_cases hpin : p ∈ d.pueblos
                · simp [he, hein, hm, hmin, hc, hcin, hp, hpin]
                · simp [he, hein, hm, hmin, hc, hcin, hp, hpin]
            · by_cases hp : p = ""
              · simp [he, hein, hm, hmin, hc, hcin, hp]
              · by_cases hpin : p ∈ d.pueblos
                · simp [he, hein, hm, hmin, hc, hcin, hp, hpin]
                · simp [he, hein, hm, hmin, hc, hcin, hp, hpin]
        · by_cases hp : p = ""
          · simp [he, hein, hm, hmin, hp]
          · by_cases hpin : p ∈ d.pueblos
            · simp [he, hein, hm, hmin, hp, hpin]
            · simp [he, hein, hm, hmin, hp, hpin]
    · by_cases hp : p = ""
      · simp [he, hein, hp]
      · by_cases hpin : p ∈ d.pueblos
        · simp [he, hein, hp, hpin]
        · simp [he, hein, hp, hpin]
